import Mathlib

/-
Shallow embedding of src/koko/src/main.rs (the kokoros CLI front end).
External collaborators (the TTSKoko synthesis engine, the filesystem, stdin)
are modelled as oracle parameters; every definition below mirrors a specific
region of main.rs, cited in its doc comment.
-/

set_option maxRecDepth 100000

/-- Whitespace trimming, modelling Rust str::trim as used at main.rs:72,
main.rs:134 (drop whitespace characters from both ends). Defined over the
character list so that it evaluates in the kernel; Char.isWhitespace covers
the whitespace characters occurring in this development. -/
def trim (s : String) : String :=
  String.mk (((s.data.dropWhile Char.isWhitespace).reverse.dropWhile Char.isWhitespace).reverse)

/-- Parsed command line (struct Cli, main.rs:14-50). Every flag that clap
makes optional is an Option; mono, oai and stream are plain bools with
default false. The f32 speed is carried as an exact rational: the layer
under verification performs no arithmetic on it, and the only literal
involved (1.0) is represented exactly. -/
structure Cli where
  text : Option String
  lan : Option String
  model : Option String
  style : Option String
  speed : Option Rat
  mono : Bool
  oai : Bool
  stream : Bool
  output : Option String
  deriving DecidableEq

/-- Configuration resolved from the flags once per run (main.rs:98-103). -/
structure Config where
  model_path : String
  style : String
  lan : String
  mono : Bool
  speed : Rat
  save_path : String
  deriving DecidableEq

/-- Default resolution of omitted flags (main.rs:98-103), performed before
any mode branch is entered. -/
def resolveConfig (args : Cli) : Config :=
  { model_path := args.model.getD ("checkpoints/kokoro-v0_19.onnx")
  , style := args.style.getD ("af_sarah.4+af_nicole.6")
  , lan := args.lan.getD ("en-us")
  , mono := args.mono
  , speed := args.speed.getD 1
  , save_path := args.output.getD ("tmp/output.wav") }

/-- The hard coded fallback paragraph substituted when no text was given
(main.rs:122-126), byte for byte the content of the Rust raw string. -/
def DEFAULT_TEXT : String :=
  "\n                    Hello, This is Kokoro, your remarkable AI TTS. It\x27s a TTS model with merely 82 million parameters yet delivers incredible audio quality.\n                    This is one of the top notch Rust based inference models, and I\x27m sure you\x27ll love it. If you do, please give us a star. Thank you very much.\n                    As the night falls, I wish you all a peaceful and restful sleep. May your dreams be filled with joy and happiness. Good night, and sweet dreams!\n                "

/-- The four execution modes of the dispatcher in main (main.rs:106-162). -/
inductive Mode where
  | Stream : Mode
  | Server : Mode
  | Batch : Mode
  | Single : Mode
  deriving DecidableEq

/-- Mode dispatch of main (main.rs:106, main.rs:109, main.rs:120-131): the
stream flag is checked first, then the oai flag, then whether the text value
(after the fallback substitution of main.rs:121-127) is an existing regular
file; isFile models the conjunction path.exists() && path.is_file() of
main.rs:131. -/
def selectMode (streamFlag oaiFlag : Bool) (text : Option String) (isFile : String → Bool) : Mode :=
  if streamFlag then Mode.Stream
  else if oaiFlag then Mode.Server
  else if isFile (text.getD DEFAULT_TEXT) then Mode.Batch
  else Mode.Single

/-- Options passed to TTSKoko::tts for one file writing synthesis call
(TTSOpts, main.rs:137-144 and main.rs:151-159). A successful call writes one
complete WAV file at save_path. -/
structure TTSOpts where
  txt : String
  lan : String
  style_name : String
  save_path : String
  mono : Bool
  speed : Rat
  deriving DecidableEq

/-- Oracle for TTSKoko::tts (external collaborator): succeeds having written
the file at save_path, or fails with an error message. -/
abbrev FileTts : Type := TTSOpts → Except String Unit

/-- Oracle for TTSKoko::tts_raw_audio (main.rs:77): text, language, style and
speed in, raw audio samples or an error out. -/
abbrev RawTts : Type := String → String → String → Rat → Except String (List Int)

/-- One event on the streaming stdout sink: the WAV header write of
main.rs:67-68, a raw sample chunk write (write_audio_chunk, main.rs:80), or
a flush (main.rs:69 and main.rs:81). -/
inductive StreamEvent where
  | header : Nat → Nat → Nat → StreamEvent
  | chunk : List Int → StreamEvent
  | flush : StreamEvent
  deriving DecidableEq

/-- The while let loop of handle_streaming_mode (main.rs:71-85): returns the
stdout events and the stderr diagnostic lines it produces, in order. A line
that is blank after trimming is skipped (main.rs:72-74); otherwise the raw
synthesis runs on the untrimmed line (main.rs:77): success appends the chunk
and a flush to stdout (main.rs:80-81), failure appends one diagnostic to
stderr (main.rs:83). -/
def streamLoop (tts : RawTts) (lan style : String) (speed : Rat) : List String → List StreamEvent × List String
  | [] => ([], [])
  | line :: rest =>
    if (trim line).isEmpty then
      streamLoop tts lan style speed rest
    else
      match tts line lan style speed with
      | Except.ok raw_audio =>
          let r := streamLoop tts lan style speed rest
          (StreamEvent.chunk raw_audio :: StreamEvent.flush :: r.1, r.2)
      | Except.error e =>
          let r := streamLoop tts lan style speed rest
          (r.1, ("Error processing line: " ++ e) :: r.2)

/-- Result of one streaming run: the events written to the process stdout
(the audio sink, main.rs:62) and the lines written to stderr. -/
structure StreamResult where
  stdout : List StreamEvent
  stderr : List String
  deriving DecidableEq

/-- handle_streaming_mode (main.rs:51-88): prints the banner to stderr
(main.rs:65), writes the fixed WavHeader::new(1, 24000, 32) to stdout and
flushes (main.rs:67-69), then runs the line loop over stdin. -/
def handle_streaming_mode (tts : RawTts) (lan style : String) (speed : Rat)
    (stdinLines : List String) : StreamResult :=
  let r := streamLoop tts lan style speed stdinLines
  { stdout := StreamEvent.header 1 24000 32 :: StreamEvent.flush :: r.1
  , stderr := ("Entering streaming mode. Type text and press Enter. Use Ctrl+D to exit.") :: r.2 }

/-- The TTSOpts built for the enumerated line (i, line) of the batch loop
(main.rs:134-143): the trimmed line as text, and the output path formatted
as save_path, underscore, the enumeration index, dot wav (main.rs:136). -/
def batchOpts (cfg : Config) (i : Nat) (line : String) : TTSOpts :=
  { txt := trim line
  , lan := cfg.lan
  , style_name := cfg.style
  , save_path := cfg.save_path ++ "_" ++ toString i ++ ".wav"
  , mono := cfg.mono
  , speed := cfg.speed }

/-- The batch loop over the enumerated lines of the input file
(main.rs:133-146): a line blank after trimming is skipped; otherwise
TTSKoko::tts runs with the question mark operator, so its first error aborts
the whole loop and propagates (main.rs:144). Returns the successful tts
calls in order, and the loop outcome. -/
def batchLoop (tts : FileTts) (cfg : Config) : List (Nat × String) → List TTSOpts × Except String Unit
  | [] => ([], Except.ok ())
  | (i, line) :: rest =>
    if (trim line).isEmpty then
      batchLoop tts cfg rest
    else
      match tts (batchOpts cfg i line) with
      | Except.ok _ =>
          let r := batchLoop tts cfg rest
          (batchOpts cfg i line :: r.1, r.2)
      | Except.error e => ([], Except.error e)

deriving instance DecidableEq for Except

/-- Observable outcome of one process run: the streaming stdout events and
stderr lines (Stream mode), the successful file writing tts calls (Batch and
Single modes), whether the server was started (oai mode), and the process
exit outcome of the async block of main. -/
structure RunResult where
  streamOut : List StreamEvent
  streamErr : List String
  files : List TTSOpts
  serverStarted : Bool
  exit : Except String Unit
  deriving DecidableEq

/-- main (main.rs:90-164): resolves the configuration (main.rs:98-103), then
dispatches: stream flag to handle_streaming_mode (main.rs:106-108), oai flag
to the server (main.rs:109-118), else substitutes the fallback text when
none was given (main.rs:120-127), runs the batch loop when the text names an
existing regular file (main.rs:129-148), else one single tts call
(main.rs:151-160). isFile models path.exists() && path.is_file(); readLines
models fs::read_to_string followed by lines(). -/
def runMain (args : Cli) (isFile : String → Bool) (readLines : String → List String)
    (fileTts : FileTts) (rawTts : RawTts) (stdinLines : List String) : RunResult :=
  let cfg := resolveConfig args
  if args.stream then
    let r := handle_streaming_mode rawTts cfg.lan cfg.style cfg.speed stdinLines
    { streamOut := r.stdout, streamErr := r.stderr, files := []
    , serverStarted := false, exit := Except.ok () }
  else if args.oai then
    { streamOut := [], streamErr := [], files := []
    , serverStarted := true, exit := Except.ok () }
  else
    let txt := args.text.getD DEFAULT_TEXT
    if isFile txt then
      let r := batchLoop fileTts cfg (readLines txt).enum
      { streamOut := [], streamErr := [], files := r.1
      , serverStarted := false, exit := r.2 }
    else
      let opts : TTSOpts :=
        { txt := txt, lan := cfg.lan, style_name := cfg.style
        , save_path := cfg.save_path, mono := cfg.mono, speed := cfg.speed }
      match fileTts opts with
      | Except.ok _ =>
          { streamOut := [], streamErr := [], files := [opts]
          , serverStarted := false, exit := Except.ok () }
      | Except.error e =>
          { streamOut := [], streamErr := [], files := []
          , serverStarted := false, exit := Except.error e }

/-- The list of chunk payloads among a list of stream events, in order. -/
def chunksOf : List StreamEvent → List (List Int)
  | [] => []
  | StreamEvent.chunk s :: rest => s :: chunksOf rest
  | StreamEvent.header _ _ _ :: rest => chunksOf rest
  | StreamEvent.flush :: rest => chunksOf rest


/-- The number of header events in a list of stream events. -/
def countHeaders : List StreamEvent → Nat
  | [] => 0
  | StreamEvent.header _ _ _ :: rest => countHeaders rest + 1
  | StreamEvent.chunk _ :: rest => countHeaders rest
  | StreamEvent.flush :: rest => countHeaders rest

/-- Splitting the stdin line list splits the stream loop output componentwise. -/
theorem streamLoop_append (tts : RawTts) (lan style : String) (speed : Rat)
    (xs ys : List String) :
    streamLoop tts lan style speed (xs ++ ys)
      = ((streamLoop tts lan style speed xs).1 ++ (streamLoop tts lan style speed ys).1,
         (streamLoop tts lan style speed xs).2 ++ (streamLoop tts lan style speed ys).2) := by
  induction xs with
  | nil => simp [streamLoop]
  | cons l rest ih =>
    cases hb : (trim l).isEmpty with
    | true => simp [streamLoop, hb, ih]
    | false =>
      cases htts : tts l lan style speed with
      | ok raw_audio => simp [streamLoop, hb, htts, ih]
      | error e => simp [streamLoop, hb, htts, ih]

/-- The stream line loop never writes a header event. -/
theorem streamLoop_countHeaders (tts : RawTts) (lan style : String) (speed : Rat)
    (stdinLines : List String) :
    countHeaders (streamLoop tts lan style speed stdinLines).1 = 0 := by
  induction stdinLines with
  | nil => simp [streamLoop, countHeaders]
  | cons l rest ih =>
    cases hb : (trim l).isEmpty with
    | true => simp [streamLoop, hb, ih]
    | false =>
      cases htts : tts l lan style speed with
      | ok raw_audio => simp [streamLoop, countHeaders, hb, htts, ih]
      | error e => simp [streamLoop, hb, htts, ih]

/-- The chunk payloads of the stream loop output are the successful raw
syntheses of the non blank lines, in input order. -/
theorem chunksOf_streamLoop (tts : RawTts) (lan style : String) (speed : Rat)
    (stdinLines : List String) :
    chunksOf (streamLoop tts lan style speed stdinLines).1
      = stdinLines.filterMap (fun line =>
          if (trim line).isEmpty then none
          else
            match tts line lan style speed with
            | Except.ok raw_audio => some raw_audio
            | Except.error _ => none) := by
  induction stdinLines with
  | nil => simp [streamLoop, chunksOf]
  | cons l rest ih =>
    cases hb : (trim l).isEmpty with
    | true => simp [streamLoop, hb, ih]
    | false =>
      cases htts : tts l lan style speed with
      | ok raw_audio => simp [streamLoop, chunksOf, hb, htts, ih]
      | error e => simp [streamLoop, hb, htts, ih]

/-- When every synthesis call succeeds, the batch loop performs exactly one
call per non blank enumerated line, in order. -/
theorem batchLoop_all_ok (tts : FileTts) (cfg : Config) (entries : List (Nat × String))
    (hok : ∀ o, tts o = Except.ok ()) :
    batchLoop tts cfg entries
      = (entries.filterMap (fun q =>
          if (trim q.2).isEmpty then none else some (batchOpts cfg q.1 q.2)),
         Except.ok ()) := by
  induction entries with
  | nil => simp [batchLoop]
  | cons q rest ih =>
    obtain ⟨i, line⟩ := q
    cases hb : (trim line).isEmpty with
    | true => simp [batchLoop, hb, ih]
    | false => simp [batchLoop, hb, hok, ih]

/-- When the batch loop completes a prefix without an error, processing the
extended list runs the prefix first and continues with the remainder. -/
theorem batchLoop_append (tts : FileTts) (cfg : Config) (xs ys : List (Nat × String))
    (hxs : (batchLoop tts cfg xs).2 = Except.ok ()) :
    batchLoop tts cfg (xs ++ ys)
      = ((batchLoop tts cfg xs).1 ++ (batchLoop tts cfg ys).1, (batchLoop tts cfg ys).2) := by
  induction xs with
  | nil => simp [batchLoop]
  | cons q rest ih =>
    obtain ⟨i, line⟩ := q
    cases hb : (trim line).isEmpty with
    | true =>
      simp [batchLoop, hb] at hxs ⊢
      exact ih hxs
    | false =>
      cases htts : tts (batchOpts cfg i line) with
      | ok u =>
        simp [batchLoop, hb, htts] at hxs
        simp [batchLoop, hb, htts, ih hxs]
      | error e => simp [batchLoop, hb, htts] at hxs

/-- C1: mode selection is a pure function of the stream flag, the oai flag,
the text value and its filesystem existence, evaluated in the fixed
precedence order stream, then oai, then existing regular file (Batch), else
Single; the four characterizations below are mutually exclusive and
exhaustive, so exactly one mode is active per invocation. -/
theorem mode_selection_characterization (streamFlag oaiFlag : Bool) (text : Option String)
    (isFile : String → Bool) :
    (selectMode streamFlag oaiFlag text isFile = Mode.Stream ↔ streamFlag = true)
    ∧ (selectMode streamFlag oaiFlag text isFile = Mode.Server
        ↔ streamFlag = false ∧ oaiFlag = true)
    ∧ (selectMode streamFlag oaiFlag text isFile = Mode.Batch
        ↔ streamFlag = false ∧ oaiFlag = false ∧ isFile (text.getD DEFAULT_TEXT) = true)
    ∧ (selectMode streamFlag oaiFlag text isFile = Mode.Single
        ↔ streamFlag = false ∧ oaiFlag = false ∧ isFile (text.getD DEFAULT_TEXT) = false) := by
  cases streamFlag <;> cases oaiFlag <;> cases hf : isFile (text.getD DEFAULT_TEXT) <;>
    simp [selectMode, hf]

/-- C4: in Stream mode, for every invocation (whatever the mono, text and
output flags hold) and every stdin, the fixed header with 1 channel, 24000
sample rate and 32 bit depth is written first, followed immediately by a
flush, before any line loop output; no further header event ever occurs, so
the header is written exactly once even when zero non blank lines follow. -/
theorem stream_header_written_once_first (args : Cli) (isFile : String → Bool)
    (readLines : String → List String) (fileTts : FileTts) (rawTts : RawTts)
    (stdinLines : List String) (hstream : args.stream = true) :
    (runMain args isFile readLines fileTts rawTts stdinLines).streamOut
      = StreamEvent.header 1 24000 32 :: StreamEvent.flush
          :: (streamLoop rawTts (resolveConfig args).lan (resolveConfig args).style
                (resolveConfig args).speed stdinLines).1
    ∧ countHeaders (runMain args isFile readLines fileTts rawTts stdinLines).streamOut = 1 := by
  constructor
  · simp [runMain, hstream, handle_streaming_mode]
  · simp [runMain, hstream, handle_streaming_mode, countHeaders, streamLoop_countHeaders]

/-- C5: in Stream mode, a non blank line whose synthesis fails contributes
nothing to the audio sink (the stdout events equal those of the run without
that line) and contributes exactly one diagnostic on the stderr channel,
after which the loop continues over the remaining lines. -/
theorem stream_line_error_diagnostic_and_continue (tts : RawTts) (lan style : String)
    (speed : Rat) (pre post : List String) (l e : String)
    (hb : (trim l).isEmpty = false)
    (he : tts l lan style speed = Except.error e) :
    (handle_streaming_mode tts lan style speed (pre ++ l :: post)).stdout
      = (handle_streaming_mode tts lan style speed (pre ++ post)).stdout
    ∧ (handle_streaming_mode tts lan style speed (pre ++ l :: post)).stderr
      = (handle_streaming_mode tts lan style speed pre).stderr
        ++ ("Error processing line: " ++ e) :: (streamLoop tts lan style speed post).2 := by
  have h1 := streamLoop_append tts lan style speed pre (l :: post)
  have h2 := streamLoop_append tts lan style speed pre post
  constructor
  · simp [handle_streaming_mode, h1, h2, streamLoop, hb, he]
  · simp [handle_streaming_mode, h1, streamLoop, hb, he]

/-- C6: in Stream mode, a line blank after trimming is ignored, leaving both
the audio sink and the stderr channel exactly as if the line were absent;
and a successfully synthesized line contributes its raw chunk followed
immediately by a flush at the head of the remaining output. -/
theorem stream_blank_skipped_success_flushed (tts : RawTts) (lan style : String) (speed : Rat) :
    (∀ pre l post, (trim l).isEmpty = true →
        streamLoop tts lan style speed (pre ++ l :: post)
          = streamLoop tts lan style speed (pre ++ post))
    ∧ (∀ l rest raw_audio, (trim l).isEmpty = false →
        tts l lan style speed = Except.ok raw_audio →
        streamLoop tts lan style speed (l :: rest)
          = (StreamEvent.chunk raw_audio :: StreamEvent.flush
               :: (streamLoop tts lan style speed rest).1,
             (streamLoop tts lan style speed rest).2)) := by
  constructor
  · intro pre l post hb
    rw [streamLoop_append, streamLoop_append]
    simp [streamLoop, hb]
  · intro l rest raw_audio hb htts
    simp [streamLoop, hb, htts]

/-- C9: in Stream mode the chunk payloads on the audio sink are exactly the
successful syntheses of the non blank stdin lines, in the order the lines
were read; the loop is a single sequential pipeline, so chunk N+1 never
precedes chunk N and at most one synthesis call runs at a time. -/
theorem stream_chunks_in_input_order (tts : RawTts) (lan style : String) (speed : Rat)
    (stdinLines : List String) :
    chunksOf (handle_streaming_mode tts lan style speed stdinLines).stdout
      = stdinLines.filterMap (fun line =>
          if (trim line).isEmpty then none
          else
            match tts line lan style speed with
            | Except.ok raw_audio => some raw_audio
            | Except.error _ => none) := by
  simp [handle_streaming_mode, chunksOf, chunksOf_streamLoop]

/-- C10: in Stream mode the audio sink is the process stdout and the text,
mono and output flags are irrelevant: two invocations differing only in
those flags produce identical run results, in particular identical bytes on
the audio sink, for the same stdin lines. -/
theorem stream_output_independent_of_flags (args : Cli) (t : Option String) (m : Bool)
    (o : Option String) (isFile : String → Bool) (readLines : String → List String)
    (fileTts : FileTts) (rawTts : RawTts) (stdinLines : List String)
    (hstream : args.stream = true) :
    runMain { args with text := t, mono := m, output := o } isFile readLines fileTts rawTts
        stdinLines
      = runMain args isFile readLines fileTts rawTts stdinLines := by
  simp [runMain, resolveConfig, hstream]

/-- Example invocation for the batch instances: the text flag names the file
list.txt and the output prefix is P; everything else is omitted. -/
def cliBatch : Cli :=
  { text := some ("list.txt"), lan := none, model := none, style := none, speed := none
  , mono := false, oai := false, stream := false, output := some ("P") }

/-- Example invocation with every flag omitted. -/
def cliNoArgs : Cli :=
  { text := none, lan := none, model := none, style := none, speed := none
  , mono := false, oai := false, stream := false, output := none }

/-- Example invocation with only the stream flag set. -/
def cliStream : Cli :=
  { text := none, lan := none, model := none, style := none, speed := none
  , mono := false, oai := false, stream := true, output := none }

/-- Example raw synthesis engine: fails on the line bad, succeeds with one
sample chunk otherwise. -/
def rawEx : RawTts := fun line _ _ _ =>
  if line = "bad" then Except.error ("boom") else Except.ok ([5])

/-- Example file writing engine: fails on the text bad, succeeds otherwise. -/
def ttsFailsOnBad : FileTts := fun o =>
  if o.txt = "bad" then Except.error ("boom") else Except.ok ()

/-- C2: in Batch mode, when every synthesis call succeeds, exactly one file
writing call is made per line that is non blank after trimming, in order,
and its output path suffixes the configured path with the zero based
enumeration index taken over all lines, blanks included; the run exits
cleanly. -/
theorem batch_per_line_files (args : Cli) (isFile : String → Bool)
    (readLines : String → List String) (fileTts : FileTts) (rawTts : RawTts)
    (stdinLines : List String) (p : String)
    (h1 : args.stream = false) (h2 : args.oai = false) (h3 : args.text = some p)
    (h4 : isFile p = true) (hok : ∀ o, fileTts o = Except.ok ()) :
    (runMain args isFile readLines fileTts rawTts stdinLines).files
      = (readLines p).enum.filterMap (fun q =>
          if (trim q.2).isEmpty then none
          else some (batchOpts (resolveConfig args) q.1 q.2))
    ∧ (runMain args isFile readLines fileTts rawTts stdinLines).exit = Except.ok () := by
  have hall := batchLoop_all_ok fileTts (resolveConfig args) ((readLines p).enum) hok
  constructor <;> simp [runMain, h1, h2, h3, h4, hall]

/-- Witness for C2 at the documented instance: lines a, blank, b with output
prefix P produce exactly the two files P_0.wav and P_2.wav; the blank line
is skipped but still consumes enumeration slot 1. -/
theorem batch_per_line_files_witness :
    cliBatch.stream = false ∧ cliBatch.oai = false ∧ cliBatch.text = some ("list.txt")
    ∧ ((runMain cliBatch (fun q => q == "list.txt") (fun _ => ["a", "", "b"])
          (fun _ => Except.ok ()) rawEx []).files
        = [ { txt := "a", lan := "en-us", style_name := "af_sarah.4+af_nicole.6"
            , save_path := "P_0.wav", mono := false, speed := 1 }
          , { txt := "b", lan := "en-us", style_name := "af_sarah.4+af_nicole.6"
            , save_path := "P_2.wav", mono := false, speed := 1 } ]
      ∧ (runMain cliBatch (fun q => q == "list.txt") (fun _ => ["a", "", "b"])
          (fun _ => Except.ok ()) rawEx []).exit = Except.ok ()) := by
  refine ⟨rfl, rfl, rfl, ?_, ?_⟩
  · rw [(batch_per_line_files cliBatch (fun q => q == "list.txt") (fun _ => ["a", "", "b"])
        (fun _ => Except.ok ()) rawEx [] ("list.txt") rfl rfl rfl (by decide) (fun o => rfl)).1]
    decide
  · exact (batch_per_line_files cliBatch (fun q => q == "list.txt") (fun _ => ["a", "", "b"])
        (fun _ => Except.ok ()) rawEx [] ("list.txt") rfl rfl rfl (by decide) (fun o => rfl)).2

/-- Counterexample to C3 as stated: with the file lines bad then good, where
synthesis fails on bad and would succeed on good, the run writes no file at
all (iteration does not continue to good) and the process exits with the
error, not zero: the question mark operator at main.rs:144 aborts the loop
on the first per line failure. -/
theorem batch_continue_on_error_counterexample :
    (runMain cliBatch (fun q => q == "list.txt") (fun _ => ["bad", "good"]) ttsFailsOnBad
        rawEx [])
      = { streamOut := [], streamErr := [], files := [], serverStarted := false
        , exit := Except.error ("boom") } := by decide

/-- C3 amended: in Batch mode, a synthesis or write error on one line aborts
the loop immediately: the files of the error free prefix are kept, no later
line is processed, and the error propagates so the process exits non zero. -/
theorem batch_error_aborts_loop (args : Cli) (isFile : String → Bool)
    (readLines : String → List String) (fileTts : FileTts) (rawTts : RawTts)
    (stdinLines : List String) (p : String) (pre post : List (Nat × String))
    (i : Nat) (l e : String)
    (h1 : args.stream = false) (h2 : args.oai = false) (h3 : args.text = some p)
    (h4 : isFile p = true)
    (henum : (readLines p).enum = pre ++ (i, l) :: post)
    (hb : (trim l).isEmpty = false)
    (he : fileTts (batchOpts (resolveConfig args) i l) = Except.error e)
    (hpre : (batchLoop fileTts (resolveConfig args) pre).2 = Except.ok ()) :
    (runMain args isFile readLines fileTts rawTts stdinLines).files
      = (batchLoop fileTts (resolveConfig args) pre).1
    ∧ (runMain args isFile readLines fileTts rawTts stdinLines).exit = Except.error e := by
  have habort : batchLoop fileTts (resolveConfig args) ((i, l) :: post)
      = ([], Except.error e) := by
    simp [batchLoop, hb, he]
  have happ := batchLoop_append fileTts (resolveConfig args) pre ((i, l) :: post) hpre
  constructor <;> simp [runMain, h1, h2, h3, h4, henum, happ, habort]

/-- Witness for the amended C3: on the lines bad then good, the error free
prefix is empty, so no file is written and the run exits with the error. -/
theorem batch_error_aborts_loop_witness :
    cliBatch.stream = false ∧ cliBatch.oai = false ∧ cliBatch.text = some ("list.txt")
    ∧ (trim ("bad")).isEmpty = false
    ∧ ((runMain cliBatch (fun q => q == "list.txt") (fun _ => ["bad", "good"]) ttsFailsOnBad
          rawEx []).files = []
      ∧ (runMain cliBatch (fun q => q == "list.txt") (fun _ => ["bad", "good"]) ttsFailsOnBad
          rawEx []).exit = Except.error ("boom")) :=
  ⟨rfl, rfl, rfl, by decide,
   batch_error_aborts_loop cliBatch (fun q => q == "list.txt") (fun _ => ["bad", "good"])
     ttsFailsOnBad rawEx [] ("list.txt") [] [(1, "good")] 0 ("bad") ("boom")
     rfl rfl rfl (by decide) (by decide) (by decide) (by decide) rfl⟩

/-- C7: an invocation with no text, no file and no flags substitutes the
fallback paragraph before the mode dispatch, selects Single mode (given that
the paragraph is not an existing file path), makes exactly one synthesis
call on the fallback paragraph, and writes one file at the default output
path tmp/output.wav. -/
theorem default_invocation_single_file (isFile : String → Bool)
    (readLines : String → List String) (fileTts : FileTts) (rawTts : RawTts)
    (stdinLines : List String)
    (hnf : isFile DEFAULT_TEXT = false)
    (hok : fileTts
        { txt := DEFAULT_TEXT, lan := ("en-us"), style_name := ("af_sarah.4+af_nicole.6")
        , save_path := ("tmp/output.wav"), mono := false, speed := 1 } = Except.ok ()) :
    selectMode false false none isFile = Mode.Single
    ∧ runMain cliNoArgs isFile readLines fileTts rawTts stdinLines
        = { streamOut := [], streamErr := []
          , files := [ { txt := DEFAULT_TEXT, lan := ("en-us")
                       , style_name := ("af_sarah.4+af_nicole.6")
                       , save_path := ("tmp/output.wav"), mono := false, speed := 1 } ]
          , serverStarted := false, exit := Except.ok () } := by
  constructor
  · simp [selectMode, hnf]
  · simp [runMain, cliNoArgs, resolveConfig, hnf, hok]

/-- Witness for C7 with a filesystem on which no path exists and an engine
that always succeeds. -/
theorem default_invocation_single_file_witness :
    selectMode false false none (fun _ => false) = Mode.Single
    ∧ runMain cliNoArgs (fun _ => false) (fun _ => []) (fun _ => Except.ok ()) rawEx []
        = { streamOut := [], streamErr := []
          , files := [ { txt := DEFAULT_TEXT, lan := ("en-us")
                       , style_name := ("af_sarah.4+af_nicole.6")
                       , save_path := ("tmp/output.wav"), mono := false, speed := 1 } ]
          , serverStarted := false, exit := Except.ok () } :=
  default_invocation_single_file (fun _ => false) (fun _ => []) (fun _ => Except.ok ())
    rawEx [] rfl rfl

/-- C8: every omitted flag resolves to its documented default: language
en-us, style af_sarah.4+af_nicole.6, speed 1, model path
checkpoints/kokoro-v0_19.onnx and output path tmp/output.wav; resolveConfig
is evaluated once at the top of main before any mode branch. -/
theorem omitted_flags_resolve_to_defaults (args : Cli) :
    (args.lan = none → (resolveConfig args).lan = "en-us")
    ∧ (args.style = none → (resolveConfig args).style = "af_sarah.4+af_nicole.6")
    ∧ (args.speed = none → (resolveConfig args).speed = 1)
    ∧ (args.model = none → (resolveConfig args).model_path = "checkpoints/kokoro-v0_19.onnx")
    ∧ (args.output = none → (resolveConfig args).save_path = "tmp/output.wav") := by
  refine ⟨?_, ?_, ?_, ?_, ?_⟩ <;> intro h <;> simp [resolveConfig, h]

/-- Witness for C8 at the invocation with every flag omitted. -/
theorem omitted_flags_resolve_to_defaults_witness :
    (resolveConfig cliNoArgs).lan = "en-us"
    ∧ (resolveConfig cliNoArgs).style = "af_sarah.4+af_nicole.6"
    ∧ (resolveConfig cliNoArgs).speed = 1
    ∧ (resolveConfig cliNoArgs).model_path = "checkpoints/kokoro-v0_19.onnx"
    ∧ (resolveConfig cliNoArgs).save_path = "tmp/output.wav" :=
  ⟨(omitted_flags_resolve_to_defaults cliNoArgs).1 rfl,
   (omitted_flags_resolve_to_defaults cliNoArgs).2.1 rfl,
   (omitted_flags_resolve_to_defaults cliNoArgs).2.2.1 rfl,
   (omitted_flags_resolve_to_defaults cliNoArgs).2.2.2.1 rfl,
   (omitted_flags_resolve_to_defaults cliNoArgs).2.2.2.2 rfl⟩

/-- Witness for C4 on a streaming invocation with one stdin line. -/
theorem stream_header_written_once_first_witness :
    cliStream.stream = true
    ∧ ((runMain cliStream (fun _ => false) (fun _ => []) (fun _ => Except.ok ()) rawEx
          ["a"]).streamOut
        = StreamEvent.header 1 24000 32 :: StreamEvent.flush
            :: (streamLoop rawEx (resolveConfig cliStream).lan (resolveConfig cliStream).style
                  (resolveConfig cliStream).speed ["a"]).1
      ∧ countHeaders (runMain cliStream (fun _ => false) (fun _ => [])
            (fun _ => Except.ok ()) rawEx ["a"]).streamOut = 1) :=
  ⟨rfl, stream_header_written_once_first cliStream (fun _ => false) (fun _ => [])
    (fun _ => Except.ok ()) rawEx ["a"] rfl⟩

/-- Witness for C5: in the stdin a, bad, b the failing middle line leaves
the audio sink as without it and adds one stderr diagnostic. -/
theorem stream_line_error_diagnostic_and_continue_witness :
    (trim ("bad")).isEmpty = false
    ∧ rawEx ("bad") ("en-us") ("sty") 1 = Except.error ("boom")
    ∧ ((handle_streaming_mode rawEx ("en-us") ("sty") 1 (["a"] ++ "bad" :: ["b"])).stdout
        = (handle_streaming_mode rawEx ("en-us") ("sty") 1 (["a"] ++ ["b"])).stdout
      ∧ (handle_streaming_mode rawEx ("en-us") ("sty") 1 (["a"] ++ "bad" :: ["b"])).stderr
        = (handle_streaming_mode rawEx ("en-us") ("sty") 1 (["a"])).stderr
          ++ ("Error processing line: " ++ "boom")
            :: (streamLoop rawEx ("en-us") ("sty") 1 (["b"])).2) :=
  ⟨by decide, by decide,
   stream_line_error_diagnostic_and_continue rawEx ("en-us") ("sty") 1 ["a"] ["b"]
     ("bad") ("boom") (by decide) (by decide)⟩

/-- Witness for C6: a blank line between a and b is ignored, and the
successful line a emits its chunk followed immediately by a flush. -/
theorem stream_blank_skipped_success_flushed_witness :
    (trim (" ")).isEmpty = true
    ∧ streamLoop rawEx ("en-us") ("sty") 1 (["a"] ++ " " :: ["b"])
        = streamLoop rawEx ("en-us") ("sty") 1 (["a"] ++ ["b"])
    ∧ (trim ("a")).isEmpty = false
    ∧ rawEx ("a") ("en-us") ("sty") 1 = Except.ok ([5])
    ∧ streamLoop rawEx ("en-us") ("sty") 1 (["a"])
        = (StreamEvent.chunk [5] :: StreamEvent.flush
             :: (streamLoop rawEx ("en-us") ("sty") 1 ([])).1,
           (streamLoop rawEx ("en-us") ("sty") 1 ([])).2) :=
  ⟨by decide,
   (stream_blank_skipped_success_flushed rawEx ("en-us") ("sty") 1).1 ["a"] (" ") ["b"]
     (by decide),
   by decide, by decide,
   (stream_blank_skipped_success_flushed rawEx ("en-us") ("sty") 1).2 ("a") [] [5]
     (by decide) (by decide)⟩

/-- Witness for C10: flipping text, mono and output on a streaming
invocation leaves the whole run result unchanged. -/
theorem stream_output_independent_of_flags_witness :
    cliStream.stream = true
    ∧ runMain { cliStream with text := some ("z"), mono := true, output := some ("o") }
        (fun _ => false) (fun _ => []) (fun _ => Except.ok ()) rawEx ["a", "bad"]
      = runMain cliStream (fun _ => false) (fun _ => []) (fun _ => Except.ok ()) rawEx
          ["a", "bad"] :=
  ⟨rfl, stream_output_independent_of_flags cliStream (some ("z")) true (some ("o"))
    (fun _ => false) (fun _ => []) (fun _ => Except.ok ()) rawEx ["a", "bad"] rfl⟩
